import Mathlib

/-!
Verification development for the sundaeswap-ogmigo chainsync client.

The Go sources embedded here are:
- ouroboros/chainsync/types.go: the wire message model (Point, Tip, Value,
  the v5/v6 compatibility decoders, the Must accessors, the value algebra);
- client.go: the pipelined websocket session (credit channel, frame queue,
  tip channel), modelled as an explicit transition system.

Go maps are modelled as association lists (unordered content, unique keys in
all states produced by the code); map indexing with its zero-value default is
goGet, presence-sensitive access is goLookup.  Fallible Go calls return a
GoResult: a normal value, a returned error, or a runtime panic (nil-pointer
dereference or failed interface conversion).
-/

namespace chainsync

/-- Outcome of a Go call: a returned value, a returned error, or a runtime
panic (nil-pointer dereference, failed interface conversion). -/
inductive GoResult (α : Type) where
  | ok (a : α)
  | err (msg : String)
  | panic (msg : String)

def GoResult.bind : GoResult α → (α → GoResult β) → GoResult β
  | .ok a, f => f a
  | .err m, _ => .err m
  | .panic m, _ => .panic m

instance : Monad GoResult where
  pure := GoResult.ok
  bind := GoResult.bind

def GoResult.isOk : GoResult α → Bool
  | .ok _ => true
  | _ => false

def GoResult.isErr : GoResult α → Bool
  | .err _ => true
  | _ => false

def GoResult.isPanic : GoResult α → Bool
  | .panic _ => true
  | _ => false

/-- The Go runtime message for dereferencing a nil pointer. -/
def nilDerefMsg : String :=
  "runtime error: invalid memory address or nil pointer dereference"

/-- Dereference of a Go pointer: nil panics the goroutine. -/
def goDeref : Option α → GoResult α
  | some a => .ok a
  | none => .panic nilDerefMsg

/-- JSON documents, as already-lexed trees; numbers are restricted to the
integers actually exchanged by this protocol. -/
inductive Json where
  | null
  | bool (b : Bool)
  | num (n : Int)
  | str (s : String)
  | arr (elems : List Json)
  | obj (fields : List (String × Json))

/-- Key lookup in a decoded JSON object. -/
def getField (fields : List (String × Json)) (k : String) : Option Json :=
  match fields with
  | [] => none
  | (k2, v) :: rest => if k2 = k then some v else getField rest k

/- ------------------------------------------------------------------ -/
/- Value algebra (types.go lines 816-855)                              -/
/- ------------------------------------------------------------------ -/

/-- Modelled from the spec: the numeric wrapper package
(ouroboros/chainsync/num) is not under src.  Per the spec (section 2) it is
"arbitrary-precision integers for coin/asset amounts; thin but must be exact
(no floating point)", so num.Int is modelled as Int and the Int64 accessor
used by Enough is exact extraction of the represented value. -/
def num.Int64 (n : Int) : Int := n

/-- AssetID is a Go string (composite key policyID.assetNameHex). -/
abbrev AssetID := String

/-- A Go map read m[k]: the mapped amount, or the zero num.Int when the key
is absent. -/
def goGet (m : List (AssetID × Int)) (k : AssetID) : Int :=
  match m with
  | [] => 0
  | (k2, v) :: rest => if k2 = k then v else goGet rest k

/-- Presence-sensitive map access, distinguishing an absent key from a key
mapped to zero (what reflect.DeepEqual on Go maps compares). -/
def goLookup (m : List (AssetID × Int)) (k : AssetID) : Option Int :=
  match m with
  | [] => none
  | (k2, v) :: rest => if k2 = k then some v else goLookup rest k

/-- A Go map write m[k] = v: replace the existing entry or add a new one. -/
def goUpdate (m : List (AssetID × Int)) (k : AssetID) (v : Int) :
    List (AssetID × Int) :=
  match m with
  | [] => [(k, v)]
  | (k2, v2) :: rest =>
      if k2 = k then (k2, v) :: rest else (k2, v2) :: goUpdate rest k v

/-- The loop shared by Add and Subtract: start from a copy of the first
operand and fold the second operand in with f (range over the b map). -/
def goMerge (f : Int → Int → Int) (a : List (AssetID × Int)) :
    List (AssetID × Int) → List (AssetID × Int)
  | [] => a
  | (k, v) :: rest => goMerge f (goUpdate a k (f (goGet a k) v)) rest

/-- Value: coin amount plus multi-asset bundle (types.go lines 816-819). -/
structure Value where
  Coins : Int
  Assets : List (AssetID × Int)
deriving DecidableEq

/-- The keys of a Go map have no duplicates. -/
def NodupKeys (m : List (AssetID × Int)) : Prop :=
  (m.map Prod.fst).Nodup

instance (m : List (AssetID × Int)) : Decidable (NodupKeys m) := by
  unfold NodupKeys; infer_instance

/-- Go reflect.DeepEqual on two Values: equal coins, and the asset maps hold
exactly the same keys with the same amounts (an absent key differs from a key
mapped to zero). -/
def sameValue (a b : Value) : Prop :=
  a.Coins = b.Coins ∧ ∀ k, goLookup a.Assets k = goLookup b.Assets k

/-- Add (types.go lines 821-832). -/
def Add (a b : Value) : Value :=
  { Coins := a.Coins + b.Coins
    Assets := goMerge (fun x y => x + y) a.Assets b.Assets }

/-- Subtract (types.go lines 833-844). -/
def Subtract (a b : Value) : Value :=
  { Coins := a.Coins - b.Coins
    Assets := goMerge (fun x y => x - y) a.Assets b.Assets }

/-- The asset loop of Enough (types.go lines 849-853): report the first want
entry whose amount exceeds what is held. -/
def enoughAssets (haveAssets : List (AssetID × Int)) :
    List (AssetID × Int) → Bool × Option String
  | [] => (true, none)
  | (asset, amt) :: rest =>
      if num.Int64 (goGet haveAssets asset) < num.Int64 amt then
        (false, some ("not enough " ++ asset ++ " to meet demand"))
      else
        enoughAssets haveAssets rest

/-- Enough (types.go lines 845-855). -/
def Enough (hv wv : Value) : Bool × Option String :=
  if num.Int64 hv.Coins < num.Int64 wv.Coins then
    (false, some "not enough ADA to meet demand")
  else
    enoughAssets hv.Assets wv.Assets

/- ------------------------------------------------------------------ -/
/- Point and Tip, with their three codecs (types.go lines 151-373)     -/
/- ------------------------------------------------------------------ -/

/-- PointType (types.go lines 151-156): the zero value 0 marks a Point with
no representation set; PointTypeString is 1, PointTypeStruct is 2. -/
inductive PointType where
  | PointTypeUnset
  | PointTypeString
  | PointTypeStruct
deriving DecidableEq

/-- PointStruct (types.go lines 169-173); uint64 fields are modelled as Nat
(no arithmetic is performed on them; the JSON decoder enforces the uint64
range). -/
structure PointStruct where
  BlockNo : Nat
  ID : String
  Slot : Nat
deriving DecidableEq

/-- Point (types.go lines 187-191): a tagged value with a string and a
struct slot; pointStruct is a Go pointer. -/
structure Point where
  pointType : PointType
  pointString : String
  pointStruct : Option PointStruct
deriving DecidableEq

/-- The zero Go Point: no representation set. -/
def zeroPoint : Point := ⟨.PointTypeUnset, "", none⟩

/-- Tip (types.go lines 490-494). -/
structure Tip where
  Slot : Nat
  ID : String
  Height : Nat
deriving DecidableEq

/-- TipV5 (types.go lines 500-504). -/
structure TipV5 where
  Slot : Nat
  Hash : String
  BlockNo : Nat
deriving DecidableEq

/-- encoding/json decode of a number into a uint64 field. -/
def unmarshalUInt64 : Json → GoResult Nat
  | .null => .ok 0
  | .num n =>
      if 0 ≤ n ∧ n < 2 ^ 64 then .ok n.toNat
      else .err "json: number out of range for uint64"
  | _ => .err "json: cannot unmarshal value into uint64"

/-- encoding/json decode into a string field. -/
def unmarshalString : Json → GoResult String
  | .null => .ok ""
  | .str s => .ok s
  | _ => .err "json: cannot unmarshal value into string"

/-- A uint64 struct field: absent keys keep the zero value. -/
def uint64Field (fields : List (String × Json)) (k : String) : GoResult Nat :=
  match getField fields k with
  | none => .ok 0
  | some j => unmarshalUInt64 j

/-- A string struct field: absent keys keep the zero value. -/
def stringField (fields : List (String × Json)) (k : String) :
    GoResult String :=
  match getField fields k with
  | none => .ok ""
  | some j => unmarshalString j

/-- A pointer-typed struct field: absent or null leaves the pointer nil. -/
def optField (unm : Json → GoResult α) (fields : List (String × Json))
    (k : String) : GoResult (Option α) :=
  match getField fields k with
  | none => .ok none
  | some .null => .ok none
  | some j => do let a ← unm j; .ok (some a)

/-- A json.RawMessage field: the raw subdocument, nil when absent. -/
def rawField (fields : List (String × Json)) (k : String) : Option Json :=
  getField fields k

/-- encoding/json decode into PointStruct (json tags blockNo/id/slot; null
into a struct is a no-op). -/
def unmarshalPointStruct : Json → GoResult PointStruct
  | .null => .ok ⟨0, "", 0⟩
  | .obj fields => do
      let b ← uint64Field fields "blockNo"
      let i ← stringField fields "id"
      let sl ← uint64Field fields "slot"
      pure ⟨b, i, sl⟩
  | _ => .err "json: cannot unmarshal value into PointStruct"

/-- encoding/json decode into Tip (json tags slot/id/height). -/
def unmarshalTip : Json → GoResult Tip
  | .null => .ok ⟨0, "", 0⟩
  | .obj fields => do
      let sl ← uint64Field fields "slot"
      let i ← stringField fields "id"
      let h ← uint64Field fields "height"
      pure ⟨sl, i, h⟩
  | _ => .err "json: cannot unmarshal value into Tip"

/-- encoding/json decode into TipV5 (json tags slot/hash/blockNo). -/
def unmarshalTipV5 : Json → GoResult TipV5
  | .null => .ok ⟨0, "", 0⟩
  | .obj fields => do
      let sl ← uint64Field fields "slot"
      let h ← stringField fields "hash"
      let b ← uint64Field fields "blockNo"
      pure ⟨sl, h, b⟩
  | _ => .err "json: cannot unmarshal value into TipV5"

/-- Point.UnmarshalJSON (types.go lines 347-373): a leading quote decodes a
symbolic point, anything else is decoded as a PointStruct. -/
def pointUnmarshalJSON : Json → GoResult Point
  | .str s => .ok ⟨.PointTypeString, s, none⟩
  | j => do
      let ps ← unmarshalPointStruct j
      .ok ⟨.PointTypeStruct, "", some ps⟩

/-- encoding/json encode of PointStruct: fields blockNo, id, slot in
declaration order, each omitted when zero (omitempty). -/
def pointStructToJson (ps : PointStruct) : Json :=
  .obj ((if ps.BlockNo ≠ 0 then [("blockNo", Json.num ps.BlockNo)] else []) ++
    (if ps.ID ≠ "" then [("id", Json.str ps.ID)] else []) ++
    (if ps.Slot ≠ 0 then [("slot", Json.num ps.Slot)] else []))

/-- Point.MarshalJSON (types.go lines 290-299); a struct point whose struct
pointer is nil marshals the nil pointer as null. -/
def pointMarshalJSON (p : Point) : GoResult Json :=
  match p.pointType with
  | .PointTypeString => .ok (.str p.pointString)
  | .PointTypeStruct =>
      match p.pointStruct with
      | some ps => .ok (pointStructToJson ps)
      | none => .ok .null
  | .PointTypeUnset => .err "unable to unmarshal Point: unknown type"

/-- CBOR input to Point.UnmarshalCBOR, abstracted to the shapes the decoder
distinguishes: a zero-length payload, the literal bytes nil, a CBOR map
matching pointCBOR (key 1 a string or absent, key 2 a PointStruct or
absent), or any other document (which cbor.Unmarshal rejects). -/
inductive CborPoint where
  | empty
  | nilBytes
  | map (strVal : String) (structVal : Option PointStruct)
  | other
deriving DecidableEq

/-- Point.UnmarshalCBOR (types.go lines 301-323) on a fresh receiver: empty
or nil input returns with the receiver untouched (the zero Point); a
pointCBOR map sets the string and struct slots and picks the type from the
struct pointer. -/
def pointUnmarshalCBOR : CborPoint → GoResult Point
  | .empty => .ok zeroPoint
  | .nilBytes => .ok zeroPoint
  | .map s st =>
      .ok ⟨if st.isSome then .PointTypeStruct else .PointTypeString, s, st⟩
  | .other => .err "failed to unmarshal Point: cbor decode error"

/-- Point.MarshalCBOR (types.go lines 277-288): both representations are
written into a pointCBOR map (omitempty on both slots is reflected by the
decoded zero values). -/
def pointMarshalCBOR (p : Point) : GoResult CborPoint :=
  match p.pointType with
  | .PointTypeString => .ok (.map p.pointString p.pointStruct)
  | .PointTypeStruct => .ok (.map p.pointString p.pointStruct)
  | .PointTypeUnset => .err "unable to unmarshal Point: unknown type"

/-- A scalar inside a DynamoDB attribute map: a string or a number. -/
inductive AttrScalar where
  | S (s : String)
  | N (n : Int)
deriving DecidableEq

/-- A DynamoDB attribute value as Point uses it: a string attribute, a map
attribute, or any other attribute kind. -/
inductive AttrValue where
  | S (s : String)
  | M (fields : List (String × AttrScalar))
  | other
deriving DecidableEq

/-- dynamodbattribute.MarshalMap of a PointStruct: dynamodbav tags
blockNo/id/slot, each omitted when zero (omitempty). -/
def pointStructToAttrFields (ps : PointStruct) : List (String × AttrScalar) :=
  (if ps.BlockNo ≠ 0 then [("blockNo", AttrScalar.N ps.BlockNo)] else []) ++
    (if ps.ID ≠ "" then [("id", AttrScalar.S ps.ID)] else []) ++
    (if ps.Slot ≠ 0 then [("slot", AttrScalar.N ps.Slot)] else [])

/-- Key lookup in a decoded attribute map. -/
def getAttr (fields : List (String × AttrScalar)) (k : String) :
    Option AttrScalar :=
  match fields with
  | [] => none
  | (k2, v) :: rest => if k2 = k then some v else getAttr rest k

/-- dynamodbattribute.UnmarshalMap into PointStruct. -/
def attrFieldsToPointStruct (fields : List (String × AttrScalar)) :
    GoResult PointStruct := do
  let b ← match getAttr fields "blockNo" with
    | none => pure 0
    | some (.N n) =>
        if 0 ≤ n ∧ n < 2 ^ 64 then pure n.toNat
        else .err "number out of range for uint64"
    | some (.S _) => .err "cannot unmarshal string into uint64"
  let i ← match getAttr fields "id" with
    | none => pure ""
    | some (.S s) => pure s
    | some (.N _) => .err "cannot unmarshal number into string"
  let sl ← match getAttr fields "slot" with
    | none => pure 0
    | some (.N n) =>
        if 0 ≤ n ∧ n < 2 ^ 64 then pure n.toNat
        else .err "number out of range for uint64"
    | some (.S _) => .err "cannot unmarshal string into uint64"
  pure ⟨b, i, sl⟩

/-- Point.MarshalDynamoDBAttributeValue (types.go lines 261-275).  A struct
point with a nil struct pointer marshals an empty map; the case is
unreachable from the constructors and decoders considered here. -/
def pointMarshalDynamo (p : Point) : GoResult AttrValue :=
  match p.pointType with
  | .PointTypeString => .ok (.S p.pointString)
  | .PointTypeStruct =>
      match p.pointStruct with
      | some ps => .ok (.M (pointStructToAttrFields ps))
      | none => .ok (.M [])
  | .PointTypeUnset => .err "unable to unmarshal Point: unknown type"

/-- The Points representable by the Go constructors and produced by the
decoders: a symbolic point holding no struct pointer, or a structured point
holding a struct with uint64-ranged numeric fields and an empty string
slot. -/
def WFPoint (p : Point) : Prop :=
  (p.pointType = .PointTypeString ∧ p.pointStruct = none) ∨
  (p.pointType = .PointTypeStruct ∧ p.pointString = "" ∧
    ∃ ps, p.pointStruct = some ps ∧ ps.BlockNo < 2 ^ 64 ∧ ps.Slot < 2 ^ 64)

/-- Point.UnmarshalDynamoDBAttributeValue (types.go lines 325-345) on a
fresh receiver: a nil item, an empty map, or any other attribute kind falls
through every case and leaves the receiver at the zero Point. -/
def pointUnmarshalDynamo : Option AttrValue → GoResult Point
  | none => .ok zeroPoint
  | some (.S s) => .ok ⟨.PointTypeString, s, none⟩
  | some (.M fields) =>
      if fields ≠ [] then do
        let ps ← attrFieldsToPointStruct fields
        .ok ⟨.PointTypeStruct, "", some ps⟩
      else .ok zeroPoint
  | some .other => .ok zeroPoint

/- ------------------------------------------------------------------ -/
/- Response envelopes and the version-compatibility shim               -/
/- (types.go lines 407-636)                                            -/
/- ------------------------------------------------------------------ -/

/-- ResultError (types.go lines 436-441); Code is a uint32. -/
structure ResultError where
  Code : Nat
  Message : String
  Data : Option Tip
  ID : Option Json

/-- encoding/json decode of a number into a uint32 field. -/
def unmarshalUInt32 : Json → GoResult Nat
  | .null => .ok 0
  | .num n =>
      if 0 ≤ n ∧ n < 2 ^ 32 then .ok n.toNat
      else .err "json: number out of range for uint32"
  | _ => .err "json: cannot unmarshal value into uint32"

/-- encoding/json decode into ResultError (json tags code/message/data/id). -/
def unmarshalResultError : Json → GoResult ResultError
  | .null => .ok ⟨0, "", none, none⟩
  | .obj fields => do
      let c ← match getField fields "code" with
        | none => pure 0
        | some j => unmarshalUInt32 j
      let m ← stringField fields "message"
      let d ← optField unmarshalTip fields "data"
      pure ⟨c, m, d, rawField fields "id"⟩
  | _ => .err "json: cannot unmarshal value into ResultError"

/-- ResultFindIntersectionPraos (types.go lines 415-420). -/
structure ResultFindIntersectionPraos where
  Intersection : Option Point
  Tip : Option chainsync.Tip
  Error : Option ResultError
  ID : Option Json

/-- CompatibleResultFindIntersection (types.go line 444) is a Go named type
with the same underlying layout. -/
abbrev CompatibleResultFindIntersection := ResultFindIntersectionPraos

/-- encoding/json decode into ResultFindIntersectionPraos (json tags
intersection/tip/error/id). -/
def unmarshalResultFindIntersectionPraos :
    Json → GoResult ResultFindIntersectionPraos
  | .null => .ok ⟨none, none, none, none⟩
  | .obj fields => do
      let i ← optField pointUnmarshalJSON fields "intersection"
      let t ← optField unmarshalTip fields "tip"
      let e ← optField unmarshalResultError fields "error"
      pure ⟨i, t, e, rawField fields "id"⟩
  | _ => .err "json: cannot unmarshal value into ResultFindIntersectionPraos"

/-- PointStructV5 (types.go lines 175-178). -/
structure PointStructV5 where
  Hash : String
  Slot : Nat
deriving DecidableEq

/-- PointV5 (types.go lines 209-213): only unexported fields, so
encoding/json decodes nothing into it. -/
structure PointV5 where
  pointType : PointType
  pointString : String
  pointStruct : Option PointStructV5
deriving DecidableEq

/-- encoding/json decode into PointV5: with no exported fields an object or
null decodes to the zero value; any other document is a type error. -/
def unmarshalPointV5 : Json → GoResult PointV5
  | .null => .ok ⟨.PointTypeUnset, "", none⟩
  | .obj _ => .ok ⟨.PointTypeUnset, "", none⟩
  | _ => .err "json: cannot unmarshal value into PointV5"

/-- IntersectionFound (types.go lines 92-95): non-pointer Point and Tip. -/
structure IntersectionFound where
  Point : PointV5
  Tip : TipV5
deriving DecidableEq

/-- IntersectionNotFound (types.go lines 97-99). -/
structure IntersectionNotFound where
  Tip : TipV5
deriving DecidableEq

/-- encoding/json decode into IntersectionFound (untagged fields Point and
Tip; absent fields keep their zero values). -/
def unmarshalIntersectionFound : Json → GoResult IntersectionFound
  | .null => .ok ⟨⟨.PointTypeUnset, "", none⟩, ⟨0, "", 0⟩⟩
  | .obj fields => do
      let p ← match getField fields "Point" with
        | none => pure ⟨.PointTypeUnset, "", none⟩
        | some j => unmarshalPointV5 j
      let t ← match getField fields "Tip" with
        | none => pure ⟨0, "", 0⟩
        | some j => unmarshalTipV5 j
      pure ⟨p, t⟩
  | _ => .err "json: cannot unmarshal value into IntersectionFound"

/-- encoding/json decode into IntersectionNotFound (untagged field Tip). -/
def unmarshalIntersectionNotFound : Json → GoResult IntersectionNotFound
  | .null => .ok ⟨⟨0, "", 0⟩⟩
  | .obj fields => do
      let t ← match getField fields "Tip" with
        | none => pure ⟨0, "", 0⟩
        | some j => unmarshalTipV5 j
      pure ⟨t⟩
  | _ => .err "json: cannot unmarshal value into IntersectionNotFound"

/-- ResultV5 (types.go lines 407-412). -/
structure ResultV5 where
  IntersectionFound : Option IntersectionFound
  IntersectionNotFound : Option IntersectionNotFound
deriving DecidableEq

/-- encoding/json decode into ResultV5 (untagged pointer fields). -/
def unmarshalResultV5 : Json → GoResult ResultV5
  | .null => .ok ⟨none, none⟩
  | .obj fields => do
      let f ← optField unmarshalIntersectionFound fields "IntersectionFound"
      let nf ← optField unmarshalIntersectionNotFound fields
        "IntersectionNotFound"
      pure ⟨f, nf⟩
  | _ => .err "json: cannot unmarshal value into ResultV5"

/-- ResponseV5 (types.go lines 560-567); the Go field Type is renamed Type_
because Type is a Lean keyword. -/
structure ResponseV5 where
  Type_ : String
  Version : String
  ServiceName : String
  MethodName : String
  Result : Option ResultV5
  Reflection : Option Json

/-- encoding/json decode into ResponseV5 (json tags
type/version/servicename/methodname/result/reflection). -/
def unmarshalResponseV5 : Json → GoResult ResponseV5
  | .null => .ok ⟨"", "", "", "", none, none⟩
  | .obj fields => do
      let t ← stringField fields "type"
      let v ← stringField fields "version"
      let sn ← stringField fields "servicename"
      let mn ← stringField fields "methodname"
      let r ← optField unmarshalResultV5 fields "result"
      pure ⟨t, v, sn, mn, r, rawField fields "reflection"⟩
  | _ => .err "json: cannot unmarshal value into ResponseV5"

/-- IntersectionFoundV5 (types.go lines 427-430): pointer fields. -/
structure IntersectionFoundV5 where
  Point : Option chainsync.Point
  Tip : Option TipV5

/-- IntersectionNotFoundV5 (types.go lines 432-434). -/
structure IntersectionNotFoundV5 where
  Tip : Option TipV5
deriving DecidableEq

/-- ResultFindIntersectionV5 (types.go lines 422-425). -/
structure ResultFindIntersectionV5 where
  IntersectionFound : Option IntersectionFoundV5
  IntersectionNotFound : Option IntersectionNotFoundV5

/-- encoding/json decode into IntersectionFoundV5 (untagged fields Point, a
pointer to the v6 Point with its custom decoder, and Tip). -/
def unmarshalIntersectionFoundV5 : Json → GoResult IntersectionFoundV5
  | .null => .ok ⟨none, none⟩
  | .obj fields => do
      let p ← optField pointUnmarshalJSON fields "Point"
      let t ← optField unmarshalTipV5 fields "Tip"
      pure ⟨p, t⟩
  | _ => .err "json: cannot unmarshal value into IntersectionFoundV5"

/-- encoding/json decode into IntersectionNotFoundV5 (untagged field Tip). -/
def unmarshalIntersectionNotFoundV5 : Json → GoResult IntersectionNotFoundV5
  | .null => .ok ⟨none⟩
  | .obj fields => do
      let t ← optField unmarshalTipV5 fields "Tip"
      pure ⟨t⟩
  | _ => .err "json: cannot unmarshal value into IntersectionNotFoundV5"

/-- encoding/json decode into ResultFindIntersectionV5. -/
def unmarshalResultFindIntersectionV5 :
    Json → GoResult ResultFindIntersectionV5
  | .null => .ok ⟨none, none⟩
  | .obj fields => do
      let f ← optField unmarshalIntersectionFoundV5 fields "IntersectionFound"
      let nf ← optField unmarshalIntersectionNotFoundV5 fields
        "IntersectionNotFound"
      pure ⟨f, nf⟩
  | _ => .err "json: cannot unmarshal value into ResultFindIntersectionV5"

/-- CompatibleResultFindIntersection.UnmarshalJSON (types.go lines 446-476)
on a fresh receiver.  The v6 shape is tried first and accepted when its tip
is populated; otherwise the v5 shape is decoded.  In the v5
IntersectionNotFound branch the code reads the tip through
r5.IntersectionFound, which is nil there, and faults. -/
def compatibleResultFindIntersectionUnmarshalJSON (data : Json) :
    GoResult CompatibleResultFindIntersection :=
  match unmarshalResultFindIntersectionPraos data with
  | .ok r =>
      if r.Tip.isSome then .ok r
      else compatibleResultFindIntersectionV5Fallback data
  | .err _ => compatibleResultFindIntersectionV5Fallback data
  | .panic m => .panic m
where
  compatibleResultFindIntersectionV5Fallback (data : Json) :
      GoResult CompatibleResultFindIntersection :=
    match unmarshalResultFindIntersectionV5 data with
    | .err e => .err e
    | .panic m => .panic m
    | .ok r5 =>
        match r5.IntersectionFound with
        | some f => do
            let foundTip ← goDeref f.Tip
            let tip : Tip := ⟨0, foundTip.Hash, foundTip.BlockNo⟩
            .ok ⟨f.Point, some tip, none, none⟩
        | none =>
            match r5.IntersectionNotFound with
            | some _ => do
                let f ← goDeref r5.IntersectionFound
                let foundTip ← goDeref f.Tip
                let tip : Tip := ⟨0, foundTip.Hash, foundTip.BlockNo⟩
                let e : ResultError :=
                  ⟨1000, "Intersection not found", some tip, none⟩
                .ok ⟨none, none, some e, none⟩
            | none => .ok ⟨none, none, none, none⟩

/-- Block is carried opaquely by nextBlock results; the spec (section 3)
treats Block as a largely opaque passthrough payload and no claim inspects
its fields, so it is modelled as the raw decoded object. -/
structure Block where
  raw : Json

/-- encoding/json decode into Block: an object or null succeeds, any other
document is a type error.  (Field-level decode errors inside a block are
below this abstraction; no claim depends on them.) -/
def unmarshalBlock : Json → GoResult Block
  | .null => .ok ⟨.null⟩
  | .obj fields => .ok ⟨.obj fields⟩
  | _ => .err "json: cannot unmarshal value into Block"

/-- ResultNextBlockPraos (types.go lines 483-488); note the json tag of
Direction is `intersection` in the source. -/
structure ResultNextBlockPraos where
  Direction : String
  Tip : Option chainsync.Tip
  Block : Option chainsync.Block
  Point : Option chainsync.Point

/-- encoding/json decode into ResultNextBlockPraos. -/
def unmarshalResultNextBlockPraos : Json → GoResult ResultNextBlockPraos
  | .null => .ok ⟨"", none, none, none⟩
  | .obj fields => do
      let d ← stringField fields "intersection"
      let t ← optField unmarshalTip fields "tip"
      let b ← optField unmarshalBlock fields "block"
      let p ← optField pointUnmarshalJSON fields "point"
      pure ⟨d, t, b, p⟩
  | _ => .err "json: cannot unmarshal value into ResultNextBlockPraos"

/-- The dynamic types ever stored in the ResponsePraos.Result interface by
the code: nothing (the zero interface), a CompatibleResultFindIntersection
value (ResponsePraos.UnmarshalJSON), a *ResultFindIntersectionPraos pointer
(the unreachable v5 found branch of CompatibleResponsePraos.UnmarshalJSON),
or a ResultNextBlockPraos value. -/
inductive PraosResult where
  | interfaceNil
  | compatFind (r : CompatibleResultFindIntersection)
  | findPraosPtr (r : ResultFindIntersectionPraos)
  | nextBlock (r : ResultNextBlockPraos)

/-- ResponsePraos (types.go lines 569-575). -/
structure ResponsePraos where
  JsonRpc : String
  Method : String
  Result : PraosResult
  Error : Option ResultError
  ID : Option Json

/-- CompatibleResponsePraos (types.go line 507) is a Go named type with the
same underlying layout. -/
abbrev CompatibleResponsePraos := ResponsePraos

def FindIntersectionMethod : String := "findIntersection"

def NextBlockMethod : String := "nextBlock"

/-- The anonymous envelope struct inside ResponsePraos.UnmarshalJSON
(types.go lines 581-587); json tags jsonrpc/method/ID/result/error. -/
structure PraosEnvelope where
  JsonRpc : String
  Method : String
  ID : Option Json
  Result : Option Json
  Error : Option Json

/-- Decode of the anonymous envelope struct. -/
def unmarshalPraosEnvelope : Json → GoResult PraosEnvelope
  | .null => .ok ⟨"", "", none, none, none⟩
  | .obj fields => do
      let j ← stringField fields "jsonrpc"
      let m ← stringField fields "method"
      pure ⟨j, m, rawField fields "ID", rawField fields "result",
        rawField fields "error"⟩
  | _ => .err "json: cannot unmarshal value into the response envelope"

/-- ResponsePraos.UnmarshalJSON (types.go lines 580-622).  For
findIntersection the result is decoded from the whole payload b (not from
the result field) through the compatibility decoder, and the stored dynamic
type is CompatibleResultFindIntersection; for nextBlock the result field is
decoded as ResultNextBlockPraos; any other method is a decode error.  The
error field is never populated (the assignment is commented out). -/
def responsePraosUnmarshalJSON (b : Json) : GoResult ResponsePraos := do
  let m ← unmarshalPraosEnvelope b
  if m.Method = FindIntersectionMethod then do
    let findIntersection ← compatibleResultFindIntersectionUnmarshalJSON b
    pure ⟨m.JsonRpc, m.Method, .compatFind findIntersection, none, m.ID⟩
  else if m.Method = NextBlockMethod then do
    let resultBytes ← match m.Result with
      | none => GoResult.err "unexpected end of JSON input"
      | some j => pure j
    let nb ← unmarshalResultNextBlockPraos resultBytes
    pure ⟨m.JsonRpc, m.Method, .nextBlock nb, none, m.ID⟩
  else
    .err ("unknown method: " ++ m.Method)

/-- ResponsePraos.MustFindIntersectResult (types.go lines 624-629): a method
guard, then the Go type assertion Result.(ResultFindIntersectionPraos).  No
code path ever stores a plain ResultFindIntersectionPraos value in the
interface, so the assertion can only fail at runtime. -/
def ResponsePraos.MustFindIntersectResult (r : ResponsePraos) :
    GoResult ResultFindIntersectionPraos :=
  if r.Method ≠ FindIntersectionMethod then
    .panic ("must only use *Must* methods after switching on the " ++
      "findIntersection method; called on " ++ r.Method)
  else
    match r.Result with
    | .interfaceNil => .panic "interface conversion: interface is nil, not chainsync.ResultFindIntersectionPraos"
    | .compatFind _ => .panic "interface conversion: interface is chainsync.CompatibleResultFindIntersection, not chainsync.ResultFindIntersectionPraos"
    | .findPraosPtr _ => .panic "interface conversion: interface is *chainsync.ResultFindIntersectionPraos, not chainsync.ResultFindIntersectionPraos"
    | .nextBlock _ => .panic "interface conversion: interface is chainsync.ResultNextBlockPraos, not chainsync.ResultFindIntersectionPraos"

/-- ResponsePraos.MustNextBlockResult (types.go lines 631-636). -/
def ResponsePraos.MustNextBlockResult (r : ResponsePraos) :
    GoResult ResultNextBlockPraos :=
  if r.Method ≠ NextBlockMethod then
    .panic ("must only use *Must* methods after switching on the " ++
      "nextBlock method; called on " ++ r.Method)
  else
    match r.Result with
    | .nextBlock nb => .ok nb
    | _ => .panic "interface conversion: interface is not chainsync.ResultNextBlockPraos"

/-- CompatibleResponsePraos.UnmarshalJSON (types.go lines 509-558) on a
fresh receiver.  The v6 shape is tried first and accepted when its result is
populated.  The v5 fallback sets jsonrpc 2.0 and method findIntersection
before checking the v5 decode error, and returns success when that decode
failed.  On a decoded v5 payload it reads r5.Result.IntersectionFound, a nil
dereference when the v5 result is absent; the found branch assigns through
the nil pointStruct of a fresh Point, and the not-found branch reads the tip
height through the nil IntersectionFound, so both conversion branches
fault. -/
def compatibleResponsePraosUnmarshalJSON (data : Json) :
    GoResult CompatibleResponsePraos :=
  match responsePraosUnmarshalJSON data with
  | .ok r =>
      match r.Result with
      | .interfaceNil => compatibleResponsePraosV5Fallback data
      | _ => .ok r
  | .err _ => compatibleResponsePraosV5Fallback data
  | .panic m => .panic m
where
  compatibleResponsePraosV5Fallback (data : Json) :
      GoResult CompatibleResponsePraos :=
    match unmarshalResponseV5 data with
    | .panic m => .panic m
    | .err _ => .ok ⟨"2.0", FindIntersectionMethod, .interfaceNil, none, none⟩
    | .ok r5 => do
        let res ← goDeref r5.Result
        match res.IntersectionFound with
        | some f => do
            let pStruct ← goDeref (zeroPoint.pointStruct)
            let v5Struct ← goDeref f.Point.pointStruct
            let p : Point := ⟨.PointTypeStruct, "",
              some ⟨pStruct.BlockNo, v5Struct.Hash, v5Struct.Slot⟩⟩
            let t : Tip := ⟨f.Tip.Slot, f.Tip.Hash, f.Tip.BlockNo⟩
            let findIntersection : ResultFindIntersectionPraos :=
              ⟨some p, some t, none, none⟩
            pure ⟨"2.0", FindIntersectionMethod,
              .findPraosPtr findIntersection, none, r5.Reflection⟩
        | none =>
            match res.IntersectionNotFound with
            | some nf => do
                let fi ← goDeref res.IntersectionFound
                let t : Tip := ⟨nf.Tip.Slot, nf.Tip.Hash, fi.Tip.BlockNo⟩
                let e : ResultError := ⟨1000,
                  "Intersection not found - Conversion from a v5 Ogmigo call",
                  some t, none⟩
                pure ⟨"2.0", FindIntersectionMethod, .interfaceNil, some e,
                  r5.Reflection⟩
            | none =>
                pure ⟨"2.0", FindIntersectionMethod, .interfaceNil, none,
                  r5.Reflection⟩

end chainsync

namespace ogmios

/-!
The pipelined session of client.go, as an explicit transition system over
the three actors (writer task, reader task, consumer) plus the one-response-
per-request server of the spec scenario.  The channels are modelled by their
occupancy: ch (the credit channel, capacity 64, non-blocking sends), blocks
(the frame queue, capacity 8, blocking send), tip (capacity 1, never sent
to).  Cancellation and the pong write change none of these counters and are
omitted from the step relation.
-/

/-- The observable state of one session. -/
structure SessionState where
  /-- the writer goroutine has written the initial FindIntersect request -/
  writerStarted : Bool
  /-- RequestNext messages written so far -/
  rnSent : Nat
  /-- occupancy of the credit channel ch (capacity 64) -/
  credits : Nat
  /-- preload iterations of New still to run (starts at pipeline) -/
  preloadLeft : Nat
  /-- occupancy of the blocks frame queue (capacity 8) -/
  frameQueue : Nat
  /-- the reader holds a received frame not yet pushed onto blocks -/
  readerHolding : Bool
  /-- responses to FindIntersect received by the reader -/
  fiResponses : Nat
  /-- responses to RequestNext received by the reader -/
  rnResponses : Nat
  /-- ping frames received by the reader -/
  pings : Nat
  /-- frames the consumer has taken from the frame queue -/
  consumed : Nat
  /-- occupancy of the tip channel (capacity 1) -/
  tipSignals : Nat
deriving DecidableEq

/-- The state right after New dialed and spawned both goroutines: nothing
sent, no credits, the preload loop still has pipeline iterations to run. -/
def initState (pipeline : Nat) : SessionState :=
  ⟨false, 0, 0, pipeline, 0, false, 0, 0, 0, 0, 0⟩

/-- One scheduling step of the session (client.go lines 40-94 plus the
consumer in ReadNext).  Inbound frames follow the one-response-per-request
server of the spec scenario: at most one FindIntersect response once the
request was written, and at most one RequestNext response per RequestNext
written; ping frames are unconstrained.  Every receive pushes a refill
credit non-blockingly (dropped at capacity 64) before the frame is pushed,
blocking, onto the frame queue. -/
inductive Step (pipeline : Nat) : SessionState → SessionState → Prop where
  | writerInit (s : SessionState) :
      s.writerStarted = false →
      Step pipeline s { s with writerStarted := true }
  | writerRequestNext (s : SessionState) :
      s.writerStarted = true → 0 < s.credits →
      Step pipeline s
        { s with credits := s.credits - 1, rnSent := s.rnSent + 1 }
  | preloadCredit (s : SessionState) :
      0 < s.preloadLeft →
      Step pipeline s
        { s with preloadLeft := s.preloadLeft - 1,
                 credits := min (s.credits + 1) 64 }
  | readerRecvFindIntersectResponse (s : SessionState) :
      s.readerHolding = false → s.writerStarted = true → s.fiResponses = 0 →
      Step pipeline s
        { s with fiResponses := 1, credits := min (s.credits + 1) 64,
                 readerHolding := true }
  | readerRecvRequestNextResponse (s : SessionState) :
      s.readerHolding = false → s.rnResponses < s.rnSent →
      Step pipeline s
        { s with rnResponses := s.rnResponses + 1,
                 credits := min (s.credits + 1) 64, readerHolding := true }
  | readerRecvPing (s : SessionState) :
      s.readerHolding = false →
      Step pipeline s
        { s with pings := s.pings + 1, credits := min (s.credits + 1) 64,
                 readerHolding := true }
  | readerDeliverFrame (s : SessionState) :
      s.readerHolding = true → s.frameQueue < 8 →
      Step pipeline s
        { s with frameQueue := s.frameQueue + 1, readerHolding := false }
  | consumeFrame (s : SessionState) :
      0 < s.frameQueue →
      Step pipeline s
        { s with frameQueue := s.frameQueue - 1,
                 consumed := s.consumed + 1 }

/-- States reachable from the start of a session with the given pipeline
depth, under any interleaving of the steps. -/
inductive Reachable (pipeline : Nat) : SessionState → Prop where
  | init : Reachable pipeline (initState pipeline)
  | step {s t : SessionState} : Reachable pipeline s → Step pipeline s t →
      Reachable pipeline t

end ogmios

/-!
Helper lemmas about the Go-map model used by the value algebra.
-/

namespace chainsync

theorem goGet_goUpdate (m : List (AssetID × Int)) (k j : AssetID) (v : Int) :
    goGet (goUpdate m k v) j = if j = k then v else goGet m j := by
  induction m with
  | nil =>
      by_cases h : j = k
      · subst h; simp [goUpdate, goGet]
      · simp [goUpdate, goGet, h, Ne.symm h]
  | cons kv rest ih =>
      obtain ⟨k2, v2⟩ := kv
      by_cases h1 : k2 = k
      · subst h1
        by_cases h2 : j = k2
        · subst h2; simp [goUpdate, goGet]
        · simp [goUpdate, goGet, h2, Ne.symm h2]
      · by_cases h2 : k2 = j
        · have hjk : ¬(j = k) := fun hh => h1 (h2.trans hh)
          simp [goUpdate, goGet, h1, h2, hjk]
        · simp [goUpdate, goGet, h1, h2, ih]

theorem mem_keys_goUpdate (m : List (AssetID × Int)) (k j : AssetID)
    (v : Int) (h : j ∈ (goUpdate m k v).map Prod.fst) :
    j = k ∨ j ∈ m.map Prod.fst := by
  induction m with
  | nil => simpa [goUpdate] using h
  | cons kv rest ih =>
      obtain ⟨k2, v2⟩ := kv
      by_cases h1 : k2 = k
      · subst h1; simpa [goUpdate] using h
      · simp only [goUpdate, h1, if_false, List.map_cons, List.mem_cons] at h
        rcases h with h | h
        · exact Or.inr (by simp [h])
        · rcases ih h with h2 | h2
          · exact Or.inl h2
          · exact Or.inr (by simp [h2])

theorem goGet_of_not_mem_keys (m : List (AssetID × Int)) (k : AssetID)
    (h : k ∉ m.map Prod.fst) : goGet m k = 0 := by
  induction m with
  | nil => rfl
  | cons kv rest ih =>
      obtain ⟨k2, v2⟩ := kv
      simp only [List.map_cons, List.mem_cons] at h
      push_neg at h
      have : k2 ≠ k := fun h2 => h.1 h2.symm
      simp [goGet, this, ih h.2]

theorem goGet_goMerge (f : Int → Int → Int) (b a : List (AssetID × Int))
    (k : AssetID) (hb : NodupKeys b) :
    goGet (goMerge f a b) k =
      if k ∈ b.map Prod.fst then f (goGet a k) (goGet b k) else goGet a k := by
  induction b generalizing a with
  | nil => simp [goMerge]
  | cons kv rest ih =>
      obtain ⟨k0, v0⟩ := kv
      simp only [NodupKeys, List.map_cons, List.nodup_cons] at hb
      have hrest : NodupKeys rest := hb.2
      by_cases hk : k = k0
      · subst hk
        have hnot : k ∉ rest.map Prod.fst := hb.1
        simp [goMerge, ih _ hrest, hnot, goGet_goUpdate, goGet]
      · simp only [goMerge, List.map_cons]
        rw [ih _ hrest]
        by_cases hm : k ∈ List.map Prod.fst rest
        · rw [if_pos hm, if_pos (List.mem_cons_of_mem _ hm),
            goGet_goUpdate, if_neg hk]
          simp [goGet, Ne.symm hk]
        · have hnotc : k ∉ k0 :: List.map Prod.fst rest := by
            intro hcon
            rcases List.mem_cons.mp hcon with h | h
            · exact hk h
            · exact hm h
          rw [if_neg hm, if_neg hnotc, goGet_goUpdate, if_neg hk]

theorem mem_keys_goMerge (f : Int → Int → Int) (b a : List (AssetID × Int))
    (k : AssetID) (h : k ∈ (goMerge f a b).map Prod.fst) :
    k ∈ a.map Prod.fst ∨ k ∈ b.map Prod.fst := by
  induction b generalizing a with
  | nil => exact Or.inl h
  | cons kv rest ih =>
      obtain ⟨k0, v0⟩ := kv
      simp only [goMerge] at h
      rcases ih _ h with h2 | h2
      · rcases mem_keys_goUpdate _ _ _ _ h2 with h3 | h3
        · exact Or.inr (by simp [h3])
        · exact Or.inl h3
      · exact Or.inr (by simp [h2])

theorem goGet_Add_Assets (a b : Value) (hb : NodupKeys b.Assets)
    (k : AssetID) :
    goGet (Add a b).Assets k = goGet a.Assets k + goGet b.Assets k := by
  have h := goGet_goMerge (fun x y => x + y) b.Assets a.Assets k hb
  by_cases hk : k ∈ b.Assets.map Prod.fst
  · simpa [Add, hk] using h
  · have h0 := goGet_of_not_mem_keys b.Assets k hk
    simp [Add, hk, h0] at h ⊢
    exact h

theorem goGet_Subtract_Assets (a b : Value) (hb : NodupKeys b.Assets)
    (k : AssetID) :
    goGet (Subtract a b).Assets k = goGet a.Assets k - goGet b.Assets k := by
  have h := goGet_goMerge (fun x y => x - y) b.Assets a.Assets k hb
  by_cases hk : k ∈ b.Assets.map Prod.fst
  · simpa [Subtract, hk] using h
  · have h0 := goGet_of_not_mem_keys b.Assets k hk
    simp [Subtract, hk, h0] at h ⊢
    exact h

theorem enoughAssets_spec (ha wa : List (AssetID × Int)) :
    ((enoughAssets ha wa).1 = true ↔
      ∀ kv ∈ wa, kv.2 ≤ goGet ha kv.1) ∧
    (∀ e, (enoughAssets ha wa).2 = some e →
      ∃ kv, kv ∈ wa ∧ goGet ha kv.1 < kv.2 ∧
        e = "not enough " ++ kv.1 ++ " to meet demand") := by
  induction wa with
  | nil => simp [enoughAssets]
  | cons kv rest ih =>
      obtain ⟨asset, amt⟩ := kv
      by_cases h : goGet ha asset < amt
      · refine ⟨?_, ?_⟩
        · simp only [enoughAssets, num.Int64, if_pos h]
          constructor
          · intro hfalse; cases hfalse
          · intro hall
            exact absurd (hall (asset, amt) (by simp)) (not_le.mpr h)
        · intro e he
          simp only [enoughAssets, num.Int64, if_pos h] at he
          exact ⟨(asset, amt), by simp, h, (Option.some_inj.mp he).symm⟩
      · refine ⟨?_, ?_⟩
        · simp only [enoughAssets, num.Int64, if_neg h]
          rw [ih.1]
          constructor
          · intro hall kv2 hkv2
            rcases List.mem_cons.mp hkv2 with h2 | h2
            · subst h2; exact not_lt.mp h
            · exact hall kv2 h2
          · intro hall kv2 hkv2
            exact hall kv2 (List.mem_cons_of_mem _ hkv2)
        · intro e he
          simp only [enoughAssets, num.Int64, if_neg h] at he
          obtain ⟨kv2, hmem, hlt, heq⟩ := ih.2 e he
          exact ⟨kv2, List.mem_cons_of_mem _ hmem, hlt, heq⟩

end chainsync

/-- C3: Enough(have, want) returns true iff have.Coins is at least
want.Coins and, for every asset entry of want, the amount held for that key
(zero when absent) is at least the wanted amount, all compared as exact
integers; when it returns an error, the error names the specific short asset
(or the coin shortfall). -/
theorem c3_enough_exact (hv wv : chainsync.Value) :
    ((chainsync.Enough hv wv).1 = true ↔
      wv.Coins ≤ hv.Coins ∧
        ∀ kv ∈ wv.Assets, kv.2 ≤ chainsync.goGet hv.Assets kv.1) ∧
    (∀ e, (chainsync.Enough hv wv).2 = some e →
      (e = "not enough ADA to meet demand" ∧ hv.Coins < wv.Coins) ∨
      ∃ kv, kv ∈ wv.Assets ∧ chainsync.goGet hv.Assets kv.1 < kv.2 ∧
        e = "not enough " ++ kv.1 ++ " to meet demand") := by
  have hspec := chainsync.enoughAssets_spec hv.Assets wv.Assets
  by_cases h : hv.Coins < wv.Coins
  · refine ⟨?_, ?_⟩
    · simp only [chainsync.Enough, chainsync.num.Int64, if_pos h]
      constructor
      · intro hfalse; cases hfalse
      · intro hall; exact absurd hall.1 (not_le.mpr h)
    · intro e he
      simp only [chainsync.Enough, chainsync.num.Int64, if_pos h] at he
      exact Or.inl ⟨(Option.some_inj.mp he).symm, h⟩
  · refine ⟨?_, ?_⟩
    · simp only [chainsync.Enough, chainsync.num.Int64, if_neg h]
      rw [hspec.1]
      exact ⟨fun hall => ⟨not_lt.mp h, hall⟩, fun hall => hall.2⟩
    · intro e he
      simp only [chainsync.Enough, chainsync.num.Int64, if_neg h] at he
      exact Or.inr (hspec.2 e he)

/-- Witness for C3, at the concrete example of the spec (section 8):
have = 100 coins and 5 of asset X, want = 50 coins and 10 of X. -/
theorem c3_enough_exact_witness :
    ((chainsync.Enough ⟨100, [("X", 5)]⟩ ⟨50, [("X", 10)]⟩).1 = true ↔
      (50 : Int) ≤ 100 ∧
        ∀ kv ∈ [(("X" : chainsync.AssetID), (10 : Int))],
          kv.2 ≤ chainsync.goGet [("X", 5)] kv.1) ∧
    (∀ e, (chainsync.Enough ⟨100, [("X", 5)]⟩ ⟨50, [("X", 10)]⟩).2 = some e →
      (e = "not enough ADA to meet demand" ∧ (100 : Int) < 50) ∨
      ∃ kv, kv ∈ [(("X" : chainsync.AssetID), (10 : Int))] ∧
        chainsync.goGet [("X", 5)] kv.1 < kv.2 ∧
        e = "not enough " ++ kv.1 ++ " to meet demand") :=
  c3_enough_exact ⟨100, [("X", 5)]⟩ ⟨50, [("X", 10)]⟩

/-- C4 counterexample: with a = (0 coins, no assets) and b = (0 coins, one
unit of X), Subtract(Add(a,b), b) holds the asset key X mapped to zero while
a does not hold the key at all, so the two Values are not equal under Go map
equality (reflect.DeepEqual). -/
theorem c4_counterexample :
    ¬ chainsync.sameValue
      (chainsync.Subtract (chainsync.Add ⟨0, []⟩ ⟨0, [("X", 1)]⟩)
        ⟨0, [("X", 1)]⟩)
      ⟨0, []⟩ := by
  intro h
  exact absurd (h.2 "X") (by decide)

/-- C4 (amended): for all Values a and b with b holding unique asset keys,
Subtract(Add(a, b), b) equals a up to amounts: the coins agree and every
asset key (absent keys counting as zero) maps to the same amount; structural
map equality can fail because keys of b absent from a remain in the result
mapped to zero. -/
theorem c4_subtract_add_cancel (a b : chainsync.Value)
    (hb : chainsync.NodupKeys b.Assets) :
    (chainsync.Subtract (chainsync.Add a b) b).Coins = a.Coins ∧
    ∀ k, chainsync.goGet (chainsync.Subtract (chainsync.Add a b) b).Assets k =
      chainsync.goGet a.Assets k := by
  constructor
  · simp [chainsync.Subtract, chainsync.Add]
  · intro k
    rw [chainsync.goGet_Subtract_Assets _ _ hb,
      chainsync.goGet_Add_Assets _ _ hb]
    ring

/-- Witness for C4 (amended), at a = (5 coins, no assets) and b = (0 coins,
one unit of X). -/
theorem c4_subtract_add_cancel_witness :
    chainsync.NodupKeys [(("X" : chainsync.AssetID), (1 : Int))] ∧
    ((chainsync.Subtract (chainsync.Add ⟨5, []⟩ ⟨0, [("X", 1)]⟩)
        ⟨0, [("X", 1)]⟩).Coins = (5 : Int) ∧
      ∀ k, chainsync.goGet
          (chainsync.Subtract (chainsync.Add ⟨5, []⟩ ⟨0, [("X", 1)]⟩)
            ⟨0, [("X", 1)]⟩).Assets k =
        chainsync.goGet ([] : List (chainsync.AssetID × Int)) k) :=
  ⟨by decide, c4_subtract_add_cancel ⟨5, []⟩ ⟨0, [("X", 1)]⟩ (by decide)⟩

/-- C8: neither Add nor Subtract introduces an asset key that is absent from
both operands; every key of either result comes from one of the operands. -/
theorem c8_no_new_asset_keys (a b : chainsync.Value) (k : chainsync.AssetID)
    (h : k ∈ (chainsync.Add a b).Assets.map Prod.fst ∨
      k ∈ (chainsync.Subtract a b).Assets.map Prod.fst) :
    k ∈ a.Assets.map Prod.fst ∨ k ∈ b.Assets.map Prod.fst := by
  rcases h with h | h
  · exact chainsync.mem_keys_goMerge _ _ _ _ h
  · exact chainsync.mem_keys_goMerge _ _ _ _ h

/-- Witness for C8, at a = (0 coins, no assets), b = (0 coins, one unit of
X), key X appearing in Add(a, b). -/
theorem c8_no_new_asset_keys_witness :
    ("X" : chainsync.AssetID) ∈
        ([] : List (chainsync.AssetID × Int)).map Prod.fst ∨
      ("X" : chainsync.AssetID) ∈
        [(("X" : chainsync.AssetID), (1 : Int))].map Prod.fst :=
  c8_no_new_asset_keys ⟨0, []⟩ ⟨0, [("X", 1)]⟩ "X" (Or.inl (by decide))

namespace ogmios

/-- The credit conservation law of the session: every credit in ch was put
there by the preload loop or by a received frame, and every RequestNext
consumed one; non-blocking sends can only drop credits, so the sum is an
upper bound.  The FindIntersect response is received at most once. -/
theorem session_invariant {pipeline : Nat} {s : SessionState}
    (h : Reachable pipeline s) :
    s.credits + s.rnSent + s.preloadLeft ≤
      pipeline + s.fiResponses + s.rnResponses + s.pings ∧
    s.fiResponses ≤ 1 := by
  induction h with
  | init => simp [initState]
  | step hr hs ih => cases hs <;> simp_all <;> omega

end ogmios

/-- C2 (amended): in every reachable session state, the number of
RequestNext requests sent never exceeds the pipeline depth plus the number
of inbound frames received (every received frame, including the
FindIntersect response and pings, refills one credit); consequently, against
a ping-free server that answers one response per request, outstanding
RequestNext requests (sent minus RequestNext responses received) never
exceed pipeline + 1, the extra one being minted by the FindIntersect
response.  The bound pipeline claimed by the spec is exceeded: see the
counterexample. -/
theorem c2_outstanding_bound {pipeline : Nat} {s : ogmios.SessionState}
    (h : ogmios.Reachable pipeline s) :
    s.rnSent ≤ pipeline + (s.fiResponses + s.rnResponses + s.pings) ∧
    (s.pings = 0 → s.rnSent - s.rnResponses ≤ pipeline + 1) := by
  have hi := ogmios.session_invariant h
  omega

/-- Witness for C2 (amended), at the initial state of a depth-8 session. -/
theorem c2_outstanding_bound_witness :
    (ogmios.initState 8).rnSent ≤
      8 + ((ogmios.initState 8).fiResponses + (ogmios.initState 8).rnResponses
        + (ogmios.initState 8).pings) ∧
    ((ogmios.initState 8).pings = 0 →
      (ogmios.initState 8).rnSent - (ogmios.initState 8).rnResponses ≤
        8 + 1) :=
  c2_outstanding_bound
    (ogmios.Reachable.init : ogmios.Reachable 8 (ogmios.initState 8))

/-- C2 counterexample: a depth-8 session can reach a state with nine
RequestNext requests sent and zero RequestNext responses received, so more
than 8 next-item requests are outstanding at once.  The schedule: the writer
sends FindIntersect, the preload loop adds 8 credits, the writer sends 8
RequestNext requests, the server answers the FindIntersect request (which
refills a ninth credit), and the writer sends a ninth RequestNext. -/
theorem c2_counterexample :
    ogmios.Reachable 8 ⟨true, 9, 0, 0, 0, true, 1, 0, 0, 0, 0⟩ ∧
    8 < (⟨true, 9, 0, 0, 0, true, 1, 0, 0, 0, 0⟩ :
        ogmios.SessionState).rnSent -
      (⟨true, 9, 0, 0, 0, true, 1, 0, 0, 0, 0⟩ :
        ogmios.SessionState).rnResponses := by
  constructor
  · have h0 : ogmios.Reachable 8 (ogmios.initState 8) := ogmios.Reachable.init
    have h1 : ogmios.Reachable 8 ⟨true, 0, 0, 8, 0, false, 0, 0, 0, 0, 0⟩ :=
      h0.step (ogmios.Step.writerInit _ rfl)
    have h2 : ogmios.Reachable 8 ⟨true, 0, 1, 7, 0, false, 0, 0, 0, 0, 0⟩ :=
      h1.step (ogmios.Step.preloadCredit _ (by decide))
    have h3 : ogmios.Reachable 8 ⟨true, 0, 2, 6, 0, false, 0, 0, 0, 0, 0⟩ :=
      h2.step (ogmios.Step.preloadCredit _ (by decide))
    have h4 : ogmios.Reachable 8 ⟨true, 0, 3, 5, 0, false, 0, 0, 0, 0, 0⟩ :=
      h3.step (ogmios.Step.preloadCredit _ (by decide))
    have h5 : ogmios.Reachable 8 ⟨true, 0, 4, 4, 0, false, 0, 0, 0, 0, 0⟩ :=
      h4.step (ogmios.Step.preloadCredit _ (by decide))
    have h6 : ogmios.Reachable 8 ⟨true, 0, 5, 3, 0, false, 0, 0, 0, 0, 0⟩ :=
      h5.step (ogmios.Step.preloadCredit _ (by decide))
    have h7 : ogmios.Reachable 8 ⟨true, 0, 6, 2, 0, false, 0, 0, 0, 0, 0⟩ :=
      h6.step (ogmios.Step.preloadCredit _ (by decide))
    have h8 : ogmios.Reachable 8 ⟨true, 0, 7, 1, 0, false, 0, 0, 0, 0, 0⟩ :=
      h7.step (ogmios.Step.preloadCredit _ (by decide))
    have h9 : ogmios.Reachable 8 ⟨true, 0, 8, 0, 0, false, 0, 0, 0, 0, 0⟩ :=
      h8.step (ogmios.Step.preloadCredit _ (by decide))
    have h10 : ogmios.Reachable 8 ⟨true, 1, 7, 0, 0, false, 0, 0, 0, 0, 0⟩ :=
      h9.step (ogmios.Step.writerRequestNext _ rfl (by decide))
    have h11 : ogmios.Reachable 8 ⟨true, 2, 6, 0, 0, false, 0, 0, 0, 0, 0⟩ :=
      h10.step (ogmios.Step.writerRequestNext _ rfl (by decide))
    have h12 : ogmios.Reachable 8 ⟨true, 3, 5, 0, 0, false, 0, 0, 0, 0, 0⟩ :=
      h11.step (ogmios.Step.writerRequestNext _ rfl (by decide))
    have h13 : ogmios.Reachable 8 ⟨true, 4, 4, 0, 0, false, 0, 0, 0, 0, 0⟩ :=
      h12.step (ogmios.Step.writerRequestNext _ rfl (by decide))
    have h14 : ogmios.Reachable 8 ⟨true, 5, 3, 0, 0, false, 0, 0, 0, 0, 0⟩ :=
      h13.step (ogmios.Step.writerRequestNext _ rfl (by decide))
    have h15 : ogmios.Reachable 8 ⟨true, 6, 2, 0, 0, false, 0, 0, 0, 0, 0⟩ :=
      h14.step (ogmios.Step.writerRequestNext _ rfl (by decide))
    have h16 : ogmios.Reachable 8 ⟨true, 7, 1, 0, 0, false, 0, 0, 0, 0, 0⟩ :=
      h15.step (ogmios.Step.writerRequestNext _ rfl (by decide))
    have h17 : ogmios.Reachable 8 ⟨true, 8, 0, 0, 0, false, 0, 0, 0, 0, 0⟩ :=
      h16.step (ogmios.Step.writerRequestNext _ rfl (by decide))
    have h18 : ogmios.Reachable 8 ⟨true, 8, 1, 0, 0, true, 1, 0, 0, 0, 0⟩ :=
      h17.step (ogmios.Step.readerRecvFindIntersectResponse _ rfl rfl rfl)
    exact h18.step (ogmios.Step.writerRequestNext _ rfl (by decide))
  · decide

/-- C10: the tip channel is never sent to: in every state reachable by any
session, under any interleaving of its tasks, its occupancy stays zero, so a
receive on the channel returned by Tip() never yields a notification. -/
theorem c10_tip_never_signaled {pipeline : Nat} {s : ogmios.SessionState}
    (h : ogmios.Reachable pipeline s) : s.tipSignals = 0 := by
  induction h with
  | init => rfl
  | step hr hs ih => cases hs <;> simpa using ih

/-- Witness for C10, at the initial state of a depth-8 session. -/
theorem c10_tip_never_signaled_witness : (ogmios.initState 8).tipSignals = 0 :=
  c10_tip_never_signaled
    (ogmios.Reachable.init : ogmios.Reachable 8 (ogmios.initState 8))

/-- C1: on a legacy intersection-not-found payload (tip slot 42, hash th,
block number 7) both compatibility decoders fault with a nil-pointer
dereference instead of producing the error object: the not-found branches
read the tip through the IntersectionFound pointer, which is nil there
(types.go lines 468 and 544). -/
theorem c1_legacy_not_found_faults :
    chainsync.compatibleResultFindIntersectionUnmarshalJSON
      (chainsync.Json.obj [("IntersectionNotFound", .obj [("Tip",
        .obj [("slot", .num 42), ("hash", .str "th"), ("blockNo", .num 7)])])])
      = .panic chainsync.nilDerefMsg ∧
    chainsync.compatibleResponsePraosUnmarshalJSON
      (chainsync.Json.obj [("type", .str "jsonwsp/response"),
        ("version", .str "1.0"), ("servicename", .str "ogmios"),
        ("methodname", .str "FindIntersect"),
        ("result", .obj [("IntersectionNotFound", .obj [("Tip",
          .obj [("slot", .num 42), ("hash", .str "th"),
            ("blockNo", .num 7)])])]),
        ("reflection", .null)])
      = .panic chainsync.nilDerefMsg :=
  ⟨rfl, rfl⟩

/-- C5: on a legacy intersection-found payload (point slot 3 hash h, tip
slot 42 hash th block number 7) CompatibleResultFindIntersection decodes
without fault but hardcodes the produced tip slot to 0, dropping the legacy
tip slot 42 (types.go line 460), and also loses the point hash because the
legacy point key hash does not match the v6 PointStruct tag id; the
CompatibleResponsePraos path faults on the same payload by assigning through
the nil pointStruct of a fresh Point (types.go line 529). -/
theorem c5_legacy_found_drops_tip_slot :
    chainsync.compatibleResultFindIntersectionUnmarshalJSON
      (chainsync.Json.obj [("IntersectionFound", .obj
        [("Point", .obj [("slot", .num 3), ("hash", .str "h")]),
         ("Tip", .obj [("slot", .num 42), ("hash", .str "th"),
           ("blockNo", .num 7)])])])
      = .ok ⟨some ⟨.PointTypeStruct, "", some ⟨0, "", 3⟩⟩,
          some ⟨0, "th", 7⟩, none, none⟩ ∧
    chainsync.compatibleResponsePraosUnmarshalJSON
      (chainsync.Json.obj [("type", .str "jsonwsp/response"),
        ("version", .str "1.0"), ("servicename", .str "ogmios"),
        ("methodname", .str "FindIntersect"),
        ("result", .obj [("IntersectionFound", .obj
          [("Point", .obj [("slot", .num 3), ("hash", .str "h")]),
           ("Tip", .obj [("slot", .num 42), ("hash", .str "th"),
             ("blockNo", .num 7)])])]),
        ("reflection", .null)])
      = .panic chainsync.nilDerefMsg :=
  ⟨rfl, rfl⟩

/-- C6: on the payload 5, which parses under neither the current nor the
legacy shape, CompatibleResponsePraos.UnmarshalJSON returns success with a
partially-filled value (jsonrpc 2.0, method findIntersection, no result, no
error) instead of a decode error (types.go lines 519-523);
CompatibleResultFindIntersection.UnmarshalJSON does return the decode
error. -/
theorem c6_unparseable_payload_not_error :
    chainsync.compatibleResponsePraosUnmarshalJSON (chainsync.Json.num 5)
      = .ok ⟨"2.0", chainsync.FindIntersectionMethod, .interfaceNil, none,
          none⟩ ∧
    (chainsync.compatibleResultFindIntersectionUnmarshalJSON
      (chainsync.Json.num 5)).isErr = true :=
  ⟨rfl, rfl⟩

/-- C9: a well-formed current-shape findIntersection response decodes
successfully with method findIntersection, yet MustFindIntersectResult still
panics on it: the decoder stores a CompatibleResultFindIntersection in the
Result interface (types.go line 609) while the accessor type-asserts
ResultFindIntersectionPraos (types.go line 628), so branching on the method
first does not prevent the fault. -/
theorem c9_must_accessor_faults :
    chainsync.responsePraosUnmarshalJSON
      (chainsync.Json.obj [("jsonrpc", .str "2.0"),
        ("method", .str "findIntersection"),
        ("result", .obj [("intersection", .str "origin"),
          ("tip", .obj [("slot", .num 1), ("id", .str "a"),
            ("height", .num 2)])])])
      = .ok ⟨"2.0", "findIntersection",
          .compatFind ⟨none, none, none, none⟩, none, none⟩ ∧
    (⟨"2.0", "findIntersection", .compatFind ⟨none, none, none, none⟩, none,
        none⟩ : chainsync.ResponsePraos).Method =
      chainsync.FindIntersectionMethod ∧
    (chainsync.ResponsePraos.MustFindIntersectResult
      ⟨"2.0", "findIntersection", .compatFind ⟨none, none, none, none⟩, none,
        none⟩).isPanic = true :=
  ⟨rfl, rfl, rfl⟩

namespace chainsync

@[simp] theorem GoResult.bind_ok (a : α) (f : α → GoResult β) :
    GoResult.bind (.ok a) f = f a := rfl

@[simp] theorem GoResult.bind_eq (x : GoResult α) (f : α → GoResult β) :
    x >>= f = GoResult.bind x f := rfl

@[simp] theorem GoResult.pure_eq (a : α) : (pure a : GoResult α) = .ok a := rfl

theorem unmarshalUInt64_natCast (n : Nat) (h : n < 2 ^ 64) :
    unmarshalUInt64 (Json.num (n : Int)) = .ok n := by
  simp only [unmarshalUInt64]
  rw [if_pos ⟨Int.natCast_nonneg n, by exact_mod_cast h⟩]
  simp

theorem unmarshalPointStruct_roundtrip (ps : PointStruct)
    (hb : ps.BlockNo < 2 ^ 64) (hs : ps.Slot < 2 ^ 64) :
    unmarshalPointStruct (pointStructToJson ps) = .ok ps := by
  obtain ⟨b, i, sl⟩ := ps
  dsimp only at hb hs
  by_cases h1 : b = 0 <;> by_cases h2 : i = "" <;> by_cases h3 : sl = 0 <;>
    simp_all [pointStructToJson, unmarshalPointStruct, uint64Field,
      stringField, getField, unmarshalString, unmarshalUInt64_natCast]

theorem pointUnmarshalJSON_obj (fields : List (String × Json)) :
    pointUnmarshalJSON (.obj fields) =
      GoResult.bind (unmarshalPointStruct (.obj fields))
        (fun ps => .ok ⟨.PointTypeStruct, "", some ps⟩) := rfl

theorem pointUnmarshalJSON_pointStructToJson (ps : PointStruct)
    (hb : ps.BlockNo < 2 ^ 64) (hs : ps.Slot < 2 ^ 64) :
    pointUnmarshalJSON (pointStructToJson ps) =
      .ok ⟨.PointTypeStruct, "", some ps⟩ := by
  have h := unmarshalPointStruct_roundtrip ps hb hs
  simp only [pointStructToJson] at h ⊢
  rw [pointUnmarshalJSON_obj, h]
  rfl

theorem attrFieldsToPointStruct_roundtrip (ps : PointStruct)
    (hb : ps.BlockNo < 2 ^ 64) (hs : ps.Slot < 2 ^ 64) :
    attrFieldsToPointStruct (pointStructToAttrFields ps) = .ok ps := by
  obtain ⟨b, i, sl⟩ := ps
  dsimp only at hb hs
  have hbcast : (0 : Int) ≤ (b : Int) ∧ (b : Int) < 2 ^ 64 :=
    ⟨Int.natCast_nonneg b, by exact_mod_cast hb⟩
  have hscast : (0 : Int) ≤ (sl : Int) ∧ (sl : Int) < 2 ^ 64 :=
    ⟨Int.natCast_nonneg sl, by exact_mod_cast hs⟩
  by_cases h1 : b = 0 <;> by_cases h2 : i = "" <;> by_cases h3 : sl = 0 <;>
    simp_all [pointStructToAttrFields, attrFieldsToPointStruct, getAttr]

theorem pointUnmarshalDynamo_attrFields (ps : PointStruct)
    (hb : ps.BlockNo < 2 ^ 64) (hs : ps.Slot < 2 ^ 64)
    (hnz : ps ≠ ⟨0, "", 0⟩) :
    pointUnmarshalDynamo (some (.M (pointStructToAttrFields ps))) =
      .ok ⟨.PointTypeStruct, "", some ps⟩ := by
  have h := attrFieldsToPointStruct_roundtrip ps hb hs
  have hne : pointStructToAttrFields ps ≠ [] := by
    obtain ⟨b, i, sl⟩ := ps
    by_cases h1 : b = 0 <;> by_cases h2 : i = "" <;> by_cases h3 : sl = 0 <;>
      simp_all [pointStructToAttrFields]
  simp [pointUnmarshalDynamo, hne, h]

end chainsync

/-- C7 counterexample: an empty CBOR payload decodes successfully to the
zero Point (no representation set), whose CBOR encoding then fails, so
encoding the value produced by this successful decode cannot reproduce the
original bytes. -/
theorem c7_counterexample :
    chainsync.pointUnmarshalCBOR .empty = .ok chainsync.zeroPoint ∧
    (chainsync.pointMarshalCBOR chainsync.zeroPoint).isOk = false :=
  ⟨rfl, rfl⟩

/-- C7 (amended): for every well-formed Point (symbolic, or structured with
uint64-ranged fields), decoding its encoding returns the Point itself for
the JSON and CBOR encodings, and for the attribute encoding provided the
struct is not all-zero (an all-zero struct encodes to an empty attribute map
that decodes to the zero Point); encoding a Point with no representation set
fails in all three encodings.  Byte-exact round-tripping of arbitrary
successfully-decoded inputs does not hold: the zero/empty CBOR payload
decodes to the zero Point whose encoding fails (see the counterexample). -/
theorem c7_point_roundtrip_amended (p : chainsync.Point) :
    (chainsync.WFPoint p →
      chainsync.GoResult.bind (chainsync.pointMarshalJSON p)
        chainsync.pointUnmarshalJSON = .ok p ∧
      chainsync.GoResult.bind (chainsync.pointMarshalCBOR p)
        chainsync.pointUnmarshalCBOR = .ok p ∧
      (p.pointStruct ≠ some ⟨0, "", 0⟩ →
        chainsync.GoResult.bind (chainsync.pointMarshalDynamo p)
          (fun a => chainsync.pointUnmarshalDynamo (some a)) = .ok p)) ∧
    (p.pointType = .PointTypeUnset →
      (chainsync.pointMarshalJSON p).isErr = true ∧
      (chainsync.pointMarshalCBOR p).isErr = true ∧
      (chainsync.pointMarshalDynamo p).isErr = true) := by
  constructor
  · intro hwf
    obtain ⟨t, s, st⟩ := p
    rcases hwf with ⟨hty, hst⟩ | ⟨hty, hstr, ps, hst, hb, hs⟩
    · dsimp only at hty hst
      subst hty; subst hst
      exact ⟨rfl, rfl, fun _ => rfl⟩
    · dsimp only at hty hstr hst
      subst hty; subst hstr; subst hst
      refine ⟨?_, rfl, ?_⟩
      · exact chainsync.pointUnmarshalJSON_pointStructToJson ps hb hs
      · intro hnz
        dsimp only at hnz
        have hnz2 : ps ≠ ⟨0, "", 0⟩ := fun hh => hnz (by rw [hh])
        exact chainsync.pointUnmarshalDynamo_attrFields ps hb hs hnz2
  · intro hty
    obtain ⟨t, s, st⟩ := p
    dsimp only at hty
    subst hty
    exact ⟨rfl, rfl, rfl⟩

/-- Witness for C7 (amended): the symbolic point origin round-trips through
the JSON codec. -/
theorem c7_point_roundtrip_amended_witness :
    chainsync.GoResult.bind
      (chainsync.pointMarshalJSON ⟨.PointTypeString, "origin", none⟩)
      chainsync.pointUnmarshalJSON =
      .ok ⟨.PointTypeString, "origin", none⟩ :=
  ((c7_point_roundtrip_amended ⟨.PointTypeString, "origin", none⟩).1
    (Or.inl ⟨rfl, rfl⟩)).1
